import Mathlib

/-!
Shallow embedding of the native↔host-runtime command bridge from
`dx_use_js_bridge` (files `src/lib.rs` and `src/android_bridge.rs`).

Global mutable statics of the Rust code (the `OnceCell` handle cell, the
`Mutex<Vec<String>>` pending queue, the `Mutex<HashMap<..>>` callback
registry, the `Once` start guard) are modelled by explicit state values
threaded through the operations.  External collaborators (JNI transport,
serde) are parameters.  Mutex-protected sections are modelled as atomic
sequential steps, which is what the short-held locks guarantee.
-/

set_option autoImplicit false

namespace DxUseJsBridge

/-- Opaque runtime handle (the `JavaVM` stored by the bridge).  The bridge
never inspects it, so an abstract `Nat` identity suffices. -/
abbrev JavaVM := Nat

/-- The Handle Cell: `static GLOBAL_JAVA_VM_CELL: OnceCell<JavaVM>`.
`none` = unset, `some vm` = set. -/
abbrev HandleCell := Option JavaVM

/-- Semantics of `OnceCell::set` as used by `store_java_vm` and
`Java_dev_dioxus_main_JsBridge_registerInstance`: both write with
`let _ = GLOBAL_JAVA_VM_CELL.set(vm)`, so a second set is a discarded
error, leaving the first value in place. -/
def cellSet (c : HandleCell) (vm : JavaVM) : HandleCell :=
  match c with
  | none => some vm
  | some w => some w

/-- `get_java_vm()` (android_bridge.rs line 170): a non-blocking read of the
`OnceCell`, returning `None` before the first successful set. -/
def get_java_vm (c : HandleCell) : Option JavaVM := c

/-- `store_java_vm` (android_bridge.rs line 87): `JavaVM::from_raw` may fail
(modelled by the `conv : Option JavaVM` argument); on success the result is
stored with `let _ = CELL.set(..)`, on failure only a log line is emitted
and the cell is untouched. -/
def store_java_vm (c : HandleCell) (conv : Option JavaVM) : HandleCell :=
  match conv with
  | some vm => cellSet c vm
  | none => c

/-- `queue_js` (android_bridge.rs line 15): `PENDING_JS.lock().unwrap().push(json)`.
The queue is a `Vec<String>` pushed at the tail; `drain(..)` later yields
front-to-back, so the list order is the enqueue order. -/
def queue_js (q : List String) (json : String) : List String :=
  q ++ [json]

/-- Shared bridge state relevant to the queue/flush operations: the Handle
Cell and the Pending Queue. -/
structure BridgeState where
  cell : HandleCell
  pending : List String
deriving Repr, DecidableEq

/-- `try_flush_pending_js` (android_bridge.rs lines 43-65).  Returns the new
state and the list of payloads handed to the transport
(`send_json_to_js_with_queue`), in drain order.  A per-item transport error
is logged (`eprintln`) without stopping the batch, so every drained item is
attempted exactly once regardless of earlier failures.  If the JVM is not
ready, or the queue is empty, it returns without error and sends nothing. -/
def try_flush_pending_js (s : BridgeState) : BridgeState × List String :=
  match get_java_vm s.cell with
  | none => (s, [])
  | some _ =>
    if s.pending.isEmpty then (s, [])
    else ({ s with pending := [] }, s.pending)

/-- Observable trace of one run of the fallback flusher loop:
how many readiness checks (`get_java_vm().is_some()`) the loop made, how
many times it invoked `try_flush_pending_js`, and every payload handed to
the transport, in order. -/
structure FlusherTrace where
  checks : Nat
  flushes : Nat
  delivered : List String
deriving Repr, DecidableEq

/-- Body of the thread spawned by `start_fallback_flusher`
(android_bridge.rs lines 25-37): `for _ in 0..150 { if get_java_vm().is_some()
{ catch_unwind(block_on(try_flush_pending_js())) } sleep(100ms) }`.
The loop has no break: it always runs its full iteration count.
`catch_unwind` swallows panics, so a flush never aborts the loop.
The fuel argument is the remaining iteration count. -/
def flusherRun : Nat → BridgeState → BridgeState × FlusherTrace
  | 0, s => (s, ⟨0, 0, []⟩)
  | n + 1, s =>
    if (get_java_vm s.cell).isSome then
      let fd := try_flush_pending_js s
      let rest := flusherRun n fd.1
      (rest.1, ⟨rest.2.checks + 1, rest.2.flushes + 1, fd.2 ++ rest.2.delivered⟩)
    else
      let rest := flusherRun n s
      (rest.1, ⟨rest.2.checks + 1, rest.2.flushes, rest.2.delivered⟩)

/-- The loop bound hard-coded in `start_fallback_flusher`: `for _ in 0..150`. -/
def FLUSH_ATTEMPTS : Nat := 150

/-- The sleep between polls: `Duration::from_millis(100)`. -/
def POLL_INTERVAL_MS : Nat := 100

/-- State of the `static STARTED_FALLBACK_FLUSH: Once` guard together with a
count of background loops actually spawned. -/
structure FlusherStart where
  started : Bool
  spawnedLoops : Nat
deriving Repr, DecidableEq

/-- `start_fallback_flusher` (android_bridge.rs lines 23-39):
`STARTED_FALLBACK_FLUSH.call_once(|| { thread::spawn(loop) })`.  `Once`
linearises concurrent callers: exactly the first runs the closure (spawning
the loop thread), all others are no-ops. -/
def start_fallback_flusher (g : FlusherStart) : FlusherStart :=
  if g.started then g
  else { started := true, spawnedLoops := g.spawnedLoops + 1 }

/-- A sequence of `n` calls to `start_fallback_flusher` (the interleaving
order of concurrent callers after `Once` linearisation). -/
def iterateStart : Nat → FlusherStart → FlusherStart
  | 0, g => g
  | n + 1, g => iterateStart n (start_fallback_flusher g)

/-- The Callback Registry `static CALLBACKS: Mutex<HashMap<String, Box<dyn
Fn(String)>>>`, as a finite map.  Handlers are identified abstractly by
`Nat` so that calls to them can be observed as events. -/
abbrev Registry := String → Option Nat

def emptyRegistry : Registry := fun _ => none

/-- `register_callback` (android_bridge.rs lines 72-78):
`callbacks.insert(id, Box::new(callback))` — `HashMap::insert` stores the
handler, replacing any previous entry under the same key. -/
def register_callback (m : Registry) (id : String) (h : Nat) : Registry :=
  fun k => if k = id then some h else m k

/-- `unregister_callback` (android_bridge.rs lines 80-83):
`callbacks.remove(id)` — removes the entry if present, no-op otherwise. -/
def unregister_callback (m : Registry) (id : String) : Registry :=
  fun k => if k = id then none else m k

/-- The lookup-and-call step of `Java_dev_dioxus_main_JsBridge_onMessageFromJava`
(android_bridge.rs lines 301-307): returns the list of handler invocations
made, each as (handler, payload).  A missing handler produces no call and
only a log line. -/
def invokeCallback (m : Registry) (id payload : String) : List (Nat × String) :=
  match m id with
  | some h => [(h, payload)]
  | none => []

/-- Observable outcome of one call to the JNI dispatch entry point. -/
inductive DispatchOutcome where
  | returnedEarly (log : String)
  | noHandler
  | handled (h : Nat) (payload : String)
  | panicked
deriving Repr, DecidableEq

def DispatchOutcome.isPanic : DispatchOutcome → Bool
  | .panicked => true
  | _ => false

/-- `Java_dev_dioxus_main_JsBridge_onMessageFromJava` (android_bridge.rs
lines 255-308).  `idConv` / `dataConv` model the `env.get_string` +
`to_str` conversion of each argument (`none` = either step failed).
`lockPoisoned` models the state of the `CALLBACKS` mutex: the code takes it
with `CALLBACKS.lock().unwrap()`, which panics on a poisoned lock.
`handlerPanics h` models whether the boxed closure `h` panics when called;
the call `callback(json_data_str)` is not wrapped in `catch_unwind`, so
such a panic unwinds out of the `extern "system"` function. -/
def onMessageFromJava (idConv dataConv : Option String)
    (lockPoisoned : Bool) (handlerPanics : Nat → Bool) (m : Registry) :
    DispatchOutcome :=
  match idConv with
  | none => .returnedEarly "Failed to get callback_id string"
  | some id =>
    match dataConv with
    | none => .returnedEarly "Failed to get json_data string"
    | some payload =>
      if lockPoisoned then .panicked
      else
        match m id with
        | some h => if handlerPanics h then .panicked else .handled h payload
        | none => .noHandler

/-- Result of a send operation (`Result<(), String>` in the source). -/
inductive SendResult where
  | ok
  | error (msg : String)
deriving Repr, DecidableEq

/-- The message built by `JsBridge::send_to_js_android` (lib.rs lines
144-148): `format!("{{\"callback_id\":\"{}\",\"data\":{}}}", id, json)`. -/
def androidMessage (callbackId jsonData : String) : String :=
  "\x7b\"callback_id\":\"" ++ callbackId ++ "\",\"data\":" ++ jsonData ++ "\x7d"

/-- `send_to_java` (android_bridge.rs lines 215-250): the very first step is
`get_java_vm().ok_or("Failed to get JavaVM")?`, an immediate error return
when the Handle Cell is unset.  With the handle present, the attach /
find_class / call_static_method / exception-check sequence is the external
JNI transport, modelled by the `transport` parameter. -/
def send_to_java (cell : HandleCell) (transport : String → SendResult)
    (message : String) : SendResult :=
  match get_java_vm cell with
  | none => .error "Failed to get JavaVM"
  | some _ => transport message

/-- `JsBridge::send_to_js` on Android (lib.rs lines 104-152): serialises the
payload (the `jsonData` argument is the already-serialised payload), builds
the callback-id envelope and calls `send_to_java`.  The whole path never
touches `PENDING_JS`, which the returned (unchanged) state makes explicit. -/
def send_to_js (s : BridgeState) (transport : String → SendResult)
    (callbackId jsonData : String) : BridgeState × SendResult :=
  (s, send_to_java s.cell transport (androidMessage callbackId jsonData))

/-- Signal state owned by one `use_js_bridge` hook: the `data` and `error`
signals. -/
structure SignalState (T : Type) where
  data : Option T
  error : Option String

/-- The wasm receive closure of `use_js_bridge` (lib.rs lines 195-218).
`strict` is the result of the structural `val.into_serde::<T>()`;
`fallback` is the result of `serde_json::from_str::<T>` applied to the
string conversion `String::from(JsString::from(val))`; `errMsg` is the
formatted "Deserialization error: {e}" text of the second failure.  On
either success the closure sets `data` and clears `error`; only when both
steps fail does it write `error`, leaving `data` untouched. -/
def receiveClosure {T : Type} (strict fallback : Option T) (errMsg : String)
    (st : SignalState T) : SignalState T :=
  match strict with
  | some parsed => { st with data := some parsed, error := none }
  | none =>
    match fallback with
    | some parsed => { st with data := some parsed, error := none }
    | none => { st with error := some errMsg }

/-- The per-message body of the Android receive effect of `use_js_bridge`
(lib.rs lines 278-290): a single `serde_json::from_str::<T>` attempt;
success sets `data` and clears `error`, failure writes only `error`. -/
def androidReceive {T : Type} (parsed : Option T) (errMsg : String)
    (st : SignalState T) : SignalState T :=
  match parsed with
  | some v => { st with data := some v, error := none }
  | none => { st with error := some errMsg }

/-! ## Helper lemmas -/

/-- Enqueueing a list of commands with `queue_js` appends them in order. -/
theorem queue_js_foldl (q : List String) (cmds : List String) :
    List.foldl queue_js q cmds = q ++ cmds := by
  induction cmds generalizing q with
  | nil => simp
  | cons c cs ih => simp [queue_js, ih]

/-- Running the flusher loop on a ready cell with an empty queue: every tick
checks readiness and flushes, but nothing is delivered. -/
theorem flusherRun_ready_empty (vm : JavaVM) (n : Nat) :
    flusherRun n ⟨some vm, []⟩ = (⟨some vm, []⟩, ⟨n, n, []⟩) := by
  induction n with
  | zero => rfl
  | succ n ih => simp [flusherRun, try_flush_pending_js, get_java_vm, ih]

/-- Running the flusher loop for at least one tick on a ready cell: the
first tick drains the whole queue, and every remaining tick keeps polling
and flushing an empty queue. -/
theorem flusherRun_ready (vm : JavaVM) (p : List String) (n : Nat) :
    flusherRun (n + 1) ⟨some vm, p⟩ = (⟨some vm, []⟩, ⟨n + 1, n + 1, p⟩) := by
  cases p with
  | nil => rw [flusherRun_ready_empty]
  | cons c cs =>
    simp [flusherRun, try_flush_pending_js, get_java_vm, flusherRun_ready_empty]

/-- Running the flusher loop on a cell that is never set: every tick makes a
readiness check and nothing else happens. -/
theorem flusherRun_not_ready (p : List String) (n : Nat) :
    flusherRun n ⟨none, p⟩ = (⟨none, p⟩, ⟨n, 0, []⟩) := by
  induction n with
  | zero => rfl
  | succ n ih => simp [flusherRun, get_java_vm, ih]

/-- Once the Handle Cell holds a value, any sequence of further sets leaves
it unchanged. -/
theorem cellSet_foldl (vm : JavaVM) (later : List JavaVM) :
    List.foldl cellSet (some vm) later = some vm := by
  induction later with
  | nil => rfl
  | cons w ws ih => simpa [cellSet] using ih

/-- Once the start guard has fired, further start calls change nothing. -/
theorem iterateStart_of_started (n : Nat) (g : FlusherStart)
    (h : g.started = true) : iterateStart n g = g := by
  induction n with
  | zero => rfl
  | succ n ih => simp [iterateStart, start_fallback_flusher, h, ih]

/-! ## Claims -/

/-- C1: the claim states that a send while the Handle Cell is unset routes
the payload to the Pending Queue and never returns an immediate
HandleNotReady-style error.  The code diverges: `send_to_java` begins with
`get_java_vm().ok_or("Failed to get JavaVM")?`, so `send_to_js` on Android
returns the error "Failed to get JavaVM" immediately and never touches the
Pending Queue (nothing in the send path calls `queue_js`; no caller of
`queue_js` exists in the repository at all).  This theorem evaluates the
embedded send path at an arbitrary not-ready state: the result is the
immediate error and the queue is unchanged. -/
theorem c1_send_unready_immediate_error (q : List String)
    (transport : String → SendResult) (callbackId jsonData : String) :
    send_to_js ⟨none, q⟩ transport callbackId jsonData
      = (⟨none, q⟩, SendResult.error "Failed to get JavaVM") := rfl

/-- C2: flushing with the handle ready empties the queue and delivers
exactly the commands enqueued via `queue_js`, in enqueue order, each
exactly once; flushing an empty queue delivers nothing and is not an error
(the function simply returns).  Instantiating `cmds := []` gives the
empty-queue case. -/
theorem c2_flush_drains_in_order (vm : JavaVM) (cmds : List String) :
    try_flush_pending_js ⟨some vm, List.foldl queue_js [] cmds⟩
      = (⟨some vm, []⟩, cmds) := by
  rw [queue_js_foldl]
  cases cmds with
  | nil => rfl
  | cons c cs => simp [try_flush_pending_js, get_java_vm]

/-- C3 counterexample: the claim states that once a polling tick finds the
cell ready and delivers the queued batch, the loop stops with no further
polling attempts or queue drains.  Concretely, with the cell ready from the
start and one queued command, the first tick delivers the command — yet the
trace shows 150 readiness checks and 150 `try_flush_pending_js` drains
(strictly more than one), because `for _ in 0..150` has no break. -/
theorem c3_counterexample :
    (flusherRun FLUSH_ATTEMPTS ⟨some 0, ["cmd"]⟩).2.delivered = ["cmd"]
  ∧ (flusherRun FLUSH_ATTEMPTS ⟨some 0, ["cmd"]⟩).2.checks = 150
  ∧ (flusherRun FLUSH_ATTEMPTS ⟨some 0, ["cmd"]⟩).2.flushes = 150
  ∧ 1 < (flusherRun FLUSH_ATTEMPTS ⟨some 0, ["cmd"]⟩).2.flushes := by
  have h : flusherRun FLUSH_ATTEMPTS ⟨some 0, ["cmd"]⟩
      = (⟨some 0, []⟩, ⟨150, 150, ["cmd"]⟩) := flusherRun_ready 0 ["cmd"] 149
  rw [h]
  exact ⟨rfl, rfl, rfl, by norm_num⟩

/-- C3 amended: once a polling tick finds the Handle Cell ready, the whole
queued batch is drained and delivered exactly once, but the loop does not
stop: it keeps polling (and calling the flush, which then finds the queue
empty and delivers nothing) until the fixed 150-iteration bound.  So over
the full run the delivered sequence is exactly the original queue contents
and the final queue is empty, while the trace records 150 checks and 150
flush calls. -/
theorem c3_amended_full_loop (vm : JavaVM) (pending : List String) :
    flusherRun FLUSH_ATTEMPTS ⟨some vm, pending⟩
      = (⟨some vm, []⟩, ⟨FLUSH_ATTEMPTS, FLUSH_ATTEMPTS, pending⟩) :=
  flusherRun_ready vm pending 149

/-- C4: if the Handle Cell never becomes ready, the flusher loop makes
exactly its bound of 150 readiness checks (one per 100 ms tick, 15 s
worst-case), performs no queue drain and no transport delivery, leaves the
queue as it was, and terminates (the recursion is structurally bounded by
the attempt count, so no checks or deliveries can occur past the bound). -/
theorem c4_bounded_give_up (pending : List String) :
    flusherRun FLUSH_ATTEMPTS ⟨none, pending⟩
      = (⟨none, pending⟩, ⟨FLUSH_ATTEMPTS, 0, []⟩)
  ∧ FLUSH_ATTEMPTS = 150
  ∧ POLL_INTERVAL_MS = 100
  ∧ FLUSH_ATTEMPTS * POLL_INTERVAL_MS = 15000 :=
  ⟨flusherRun_not_ready pending FLUSH_ATTEMPTS, rfl, rfl, rfl⟩

/-- C5: starting the flusher is idempotent.  Any number `n + 1 ≥ 1` of
calls to `start_fallback_flusher` from the initial guard state spawns
exactly one background loop (the `Once` guard runs its closure only for the
first caller), and the single spawned loop delivers a single queued command
exactly once over its whole run — not once per start call. -/
theorem c5_idempotent_start (n : Nat) (vm : JavaVM) (cmd : String) :
    (iterateStart (n + 1) ⟨false, 0⟩).spawnedLoops = 1
  ∧ (flusherRun FLUSH_ATTEMPTS ⟨some vm, [cmd]⟩).2.delivered = [cmd]
  ∧ ((flusherRun FLUSH_ATTEMPTS ⟨some vm, [cmd]⟩).2.delivered).count cmd = 1 := by
  have hstart : iterateStart (n + 1) ⟨false, 0⟩ = iterateStart n ⟨true, 1⟩ := rfl
  have hrun : flusherRun FLUSH_ATTEMPTS ⟨some vm, [cmd]⟩
      = (⟨some vm, []⟩, ⟨FLUSH_ATTEMPTS, FLUSH_ATTEMPTS, [cmd]⟩) :=
    flusherRun_ready vm [cmd] 149
  refine ⟨?_, ?_, ?_⟩
  · rw [hstart, iterateStart_of_started n ⟨true, 1⟩ rfl]
  · rw [hrun]
  · rw [hrun]
    simp

/-- C6: the Handle Cell is set-once and monotonic.  `get_java_vm` returns
`none` before the first set; the first successful `store_java_vm` stores
the handle (a failed raw-pointer conversion leaves the cell untouched and
is only logged); every subsequent set is a discarded no-op; and after any
further sequence of set attempts `get_java_vm` still returns the
originally stored handle — it is never replaced or cleared.  `get_java_vm`
is a plain read of the cell, with no blocking possible. -/
theorem c6_handle_cell_set_once :
    get_java_vm (none : HandleCell) = none
  ∧ (∀ vm : JavaVM, store_java_vm none (some vm) = some vm)
  ∧ (∀ c : HandleCell, store_java_vm c none = c)
  ∧ (∀ vm w : JavaVM, cellSet (some vm) w = some vm)
  ∧ (∀ (vm : JavaVM) (later : List JavaVM),
      get_java_vm (List.foldl cellSet (some vm) later) = some vm) :=
  ⟨rfl, fun _ => rfl, fun _ => rfl, fun _ _ => rfl,
    fun vm later => cellSet_foldl vm later⟩

/-- C7: Callback Registry round-trip.  After `register_callback id h`,
invoking `id` with payload `p` calls exactly `h` exactly once with exactly
`p`; registering `h2` under the same `id` replaces `h` (at most one handler
per identifier); and after `unregister_callback id` an invoke of `id`
makes no handler call at all — a silent no-op, not an error. -/
theorem c7_registry_round_trip (m : Registry) (id payload : String)
    (h h2 : Nat) :
    invokeCallback (register_callback m id h) id payload = [(h, payload)]
  ∧ (register_callback (register_callback m id h) id h2) id = some h2
  ∧ invokeCallback (unregister_callback m id) id payload = [] := by
  refine ⟨?_, ?_, ?_⟩ <;>
    simp [invokeCallback, register_callback, unregister_callback]

/-- C8: two-step fallback decode in the wasm receive closure.  If the
strict structural deserialization succeeds the value is taken and no error
is reported; if it fails but the string-conversion fallback parse yields a
value of the target shape, the closure succeeds via the fallback with no
error reported; only when both steps fail is a decode error written. -/
theorem c8_two_step_fallback_decode (T : Type) (st : SignalState T)
    (msg : String) :
    (∀ (v : T) (fb : Option T),
      receiveClosure (some v) fb msg st
        = { st with data := some v, error := none })
  ∧ (∀ v : T,
      receiveClosure none (some v) msg st
        = { st with data := some v, error := none })
  ∧ receiveClosure (none : Option T) none msg st
      = { st with error := some msg } :=
  ⟨fun _ _ => rfl, fun _ => rfl, rfl⟩

/-- C9 counterexample: the claim states the dispatch entry point never
panics for any incoming argument pair.  Two concrete refutations: with
valid strings and a registered handler whose closure panics, the uncaught
handler call makes the entry point panic (there is no `catch_unwind`
around `callback(json_data_str)`); and with a poisoned registry lock,
`CALLBACKS.lock().unwrap()` panics.  Either panic unwinds across the JNI
boundary instead of producing a logged early return. -/
theorem c9_counterexample :
    (onMessageFromJava (some "x") (some "p") false (fun _ => true)
      (register_callback emptyRegistry "x" 0)).isPanic = true
  ∧ (onMessageFromJava (some "x") (some "p") true (fun _ => false)
      emptyRegistry).isPanic = true := by
  exact ⟨rfl, rfl⟩

/-- C9 amended: provided the registry lock is not poisoned and the invoked
handler itself does not panic, the dispatch entry point never panics:
a failed conversion of `callback_id` or of `json_data` produces a logged
early return, and a missing handler produces only a log line; but a
poisoned lock or a panicking handler is not caught and unwinds across the
JNI boundary. -/
theorem c9_amended_no_panic_dispatch (m : Registry) (d : Option String)
    (id payload : String) :
    onMessageFromJava none d false (fun _ => false) m
      = .returnedEarly "Failed to get callback_id string"
  ∧ onMessageFromJava (some id) none false (fun _ => false) m
      = .returnedEarly "Failed to get json_data string"
  ∧ (onMessageFromJava (some id) (some payload) false (fun _ => false)
      m).isPanic = false := by
  refine ⟨rfl, rfl, ?_⟩
  cases hm : m id with
  | none => simp [onMessageFromJava, hm, DispatchOutcome.isPanic]
  | some hh => simp [onMessageFromJava, hm, DispatchOutcome.isPanic]

/-- C10: frame effect of the receive paths.  In the wasm closure the error
signal is cleared to `none` exactly on the decode-success cases (strict or
fallback), and when both decode attempts fail only the error signal is
written while the data signal keeps its previous value; the Android
receive effect behaves the same for its single-step decode. -/
theorem c10_error_signal_frame (T : Type) (st : SignalState T)
    (msg : String) :
    (∀ (v : T) (fb : Option T),
      (receiveClosure (some v) fb msg st).error = none)
  ∧ (∀ v : T, (receiveClosure none (some v) msg st).error = none)
  ∧ (receiveClosure (none : Option T) none msg st).error = some msg
  ∧ (receiveClosure (none : Option T) none msg st).data = st.data
  ∧ (∀ v : T, (androidReceive (some v) msg st).error = none)
  ∧ (androidReceive (none : Option T) msg st).error = some msg
  ∧ (androidReceive (none : Option T) msg st).data = st.data :=
  ⟨fun _ _ => rfl, fun _ => rfl, rfl, rfl, fun _ => rfl, rfl, rfl⟩

end DxUseJsBridge
